import Mathlib

/-!
Shallow embedding of the intersection-crossing decision engine of
`behavior_velocity_planner` (file
`src/planning/.../scene_module/intersection/scene_intersection.cpp`),
together with proofs about the claims of the specification.

Modelling conventions:
* C++ `double` quantities (times, velocities, distances) are modelled as `ℚ`;
  `std::sqrt` is modelled as an explicit function parameter `sqrtFn : ℚ → ℚ`
  that is shared between the embedded code and any specification-level
  definition, so every statement holds for the actual square root as a
  special case.
* Geometry primitives that live outside this translation unit
  (boost::geometry polygon tests, lanelet arc-length helpers) are modelled
  as oracle functions carried in a parameter record; the control flow of
  `scene_intersection.cpp` around those oracles is translated faithfully.
* `rclcpp::Time` readings are rationals; an `Option ℚ` models the
  `std::shared_ptr<rclcpp::Time>` pending-timestamp of the state machine.
-/

namespace Intersection

/-- The two decision states of `IntersectionModule::State`. -/
inductive State : Type
  | GO
  | STOP
deriving DecidableEq, Repr

/-- The per-instance mutable state of `IntersectionModule::StateMachine`:
the current state `state_` and the pending debounce timestamp `start_time_`
(`none` models the null shared pointer). -/
structure StateMachine where
  state : State
  startTime : Option ℚ
deriving DecidableEq, Repr

/-- Translation of `IntersectionModule::StateMachine::setStateWithMarginTime`
(scene_intersection.cpp lines 548-579).  The branches, in source order:
same-state request resets the timer; a STOP request transitions immediately
and resets the timer; a GO request while STOP starts the timer if absent,
otherwise transitions only when the elapsed duration strictly exceeds the
margin time.  (The "unsuitable state" branch is unreachable for a two-valued
state and has no counterpart here.) -/
def setStateWithMarginTime (marginTime : ℚ) (sm : StateMachine) (reqState : State)
    (now : ℚ) : StateMachine :=
  if sm.state = reqState then ⟨sm.state, none⟩
  else if reqState = State.STOP then ⟨State.STOP, none⟩
  else
    match sm.startTime with
    | none => ⟨sm.state, some now⟩
    | some t0 => if marginTime < now - t0 then ⟨State.GO, none⟩ else sm

/-- Folding `setStateWithMarginTime` over a trace of (requested state,
clock reading) evaluations, one per planning cycle. -/
def runSM (marginTime : ℚ) (sm : StateMachine) (trace : List (State × ℚ)) :
    StateMachine :=
  trace.foldl (fun s p => setStateWithMarginTime marginTime s p.1 p.2) sm

/-- The numeric value of `autoware_api_msgs::msg::IntersectionStatus::GO`.
Modelled from the spec: the message definition is not among the sources; the
spec only requires a status enum whose GO and STOP values are distinct. -/
def IntersectionStatusGO : ℕ := 1

/-- The numeric value of `autoware_api_msgs::msg::IntersectionStatus::STOP`.
Modelled from the spec: see `IntersectionStatusGO`. -/
def IntersectionStatusSTOP : ℕ := 2

/-- The external intersection status record
(`planner_data_->external_intersection_status_input`): a status value and
the header timestamp. -/
structure ExternalStatusRecord where
  status : ℕ
  stamp : ℚ
deriving DecidableEq, Repr

/-- Translation of `IntersectionModule::isTargetExternalInputStatus`
(lines 587-593): the optional external record is present, its status equals
the target, and it has not expired relative to the injected clock. -/
def isTargetExternalInputStatus (input : Option ExternalStatusRecord)
    (now externalInputTimeout : ℚ) (targetStatus : ℕ) : Bool :=
  match input with
  | none => false
  | some r => r.status == targetStatus && decide (now - r.stamp < externalInputTimeout)

/-- Translation of the `is_entry_prohibited` computation of
`IntersectionModule::modifyPathVelocity` (lines 169-174): detection results
are overridden by external-GO first and, failing that, by external-STOP. -/
def isEntryProhibited (externalGo externalStop hasCollision isStuck : Bool) : Bool :=
  if externalGo then false
  else if externalStop then true
  else hasCollision || isStuck

/-- The requested state handed to the state machine in lines 175-176,
computed from the external input record exactly as lines 75-78 and 169-174
do. -/
def requestedState (input : Option ExternalStatusRecord) (now timeout : ℚ)
    (hasCollision isStuck : Bool) : State :=
  if isEntryProhibited
      (isTargetExternalInputStatus input now timeout IntersectionStatusGO)
      (isTargetExternalInputStatus input now timeout IntersectionStatusSTOP)
      hasCollision isStuck
  then State.STOP else State.GO

/-- Object classification labels of `autoware_perception_msgs::msg::Semantic`. -/
inductive SemanticType : Type
  | UNKNOWN
  | CAR
  | TRUCK
  | BUS
  | BICYCLE
  | MOTORBIKE
  | PEDESTRIAN
  | ANIMAL
deriving DecidableEq, Repr

/-- A predicted pose of a tracked object: an identity tag (standing for the
geometric pose, which only the oracles inspect) and its header timestamp. -/
structure Pose where
  pid : ℕ
  stamp : ℚ
deriving DecidableEq, Repr

/-- One predicted path of a tracked object: a confidence value and the
timestamped pose sequence. -/
structure PredictedPath where
  confidence : ℚ
  path : List Pose
deriving DecidableEq, Repr

/-- A tracked dynamic object.  `inEgoLane` and `nearDetectionAreaOk` are the
outcomes of the geometric filters of `checkCollision` lines 254-276
(`bg::within` of the object position in the ego polygon, and the
detection-area distance / heading-angle test), which depend only on the
snapshot. -/
structure DynObject where
  oid : ℕ
  semanticType : SemanticType
  vx : ℚ
  inEgoLane : Bool
  nearDetectionAreaOk : Bool
  predictedPaths : List PredictedPath
deriving DecidableEq, Repr

/-- Translation of `IntersectionModule::isTargetCollisionVehicleType`
(lines 520-533): CAR, BUS, TRUCK, MOTORBIKE or BICYCLE. -/
def isTargetCollisionVehicleType (o : DynObject) : Bool :=
  o.semanticType == SemanticType.CAR || o.semanticType == SemanticType.BUS ||
  o.semanticType == SemanticType.TRUCK || o.semanticType == SemanticType.MOTORBIKE ||
  o.semanticType == SemanticType.BICYCLE

/-- Translation of `IntersectionModule::isTargetStuckVehicleType`
(lines 535-547): CAR, BUS, TRUCK or MOTORBIKE (no BICYCLE). -/
def isTargetStuckVehicleType (o : DynObject) : Bool :=
  o.semanticType == SemanticType.CAR || o.semanticType == SemanticType.BUS ||
  o.semanticType == SemanticType.TRUCK || o.semanticType == SemanticType.MOTORBIKE

/-- Translation of `IntersectionModule::checkStuckVehicleInIntersection`
(lines 466-498).  `inStuckArea o` is the oracle for
`!bg::disjoint(obj_footprint, stuck_vehicle_detect_area)` of the object with
id `o`; the detect-area construction itself is geometry owned by
`generateEgoIntersectionLanePolygon`.  The loop returns at the first match,
which coincides with `List.any`. -/
def checkStuckVehicleInIntersection (stuckVehicleVelThr : ℚ) (inStuckArea : ℕ → Bool)
    (objects : List DynObject) : Bool :=
  objects.any (fun o =>
    isTargetStuckVehicleType o && decide (|o.vx| ≤ stuckVehicleVelThr) && inStuckArea o.oid)

/-- The loop body of `IntersectionModule::calcIntersectionPassingTime`
(lines 436-456), translated over the list of path segments ahead of the
closest index.  Each list entry is `(d, tag)`: `d` the 2-D distance between
consecutive path points (`planning_utils::calcDist2d`) and `tag` whether the
segment's end point carries the objective lane id (`util::hasLaneId`).
Returns the appended (time, distance) pairs and the final
`assigned_lane_found` flag; the pair of a segment is appended before the
break test, exactly as in the source. -/
def passingTimeLoop (sqrtFn : ℚ → ℚ) (maxAcc vCap : ℚ) :
    ℚ → ℚ → ℚ → Bool → List (ℚ × Bool) → List (ℚ × ℚ) × Bool
  | _, _, _, found, [] => ([], found)
  | v, t, s, found, (d, tag) :: rest =>
    let nextVel := min (sqrtFn (v * v + 2 * maxAcc * d)) vCap
    let averageVel := min ((v + nextVel) / 2) vCap
    let t2 := t + d / averageVel
    let s2 := s + d
    if found && !tag then ([(t2, s2)], true)
    else
      let r := passingTimeLoop sqrtFn maxAcc vCap nextVel t2 s2 tag rest
      ((t2, s2) :: r.1, r.2)

/-- Translation of `IntersectionModule::calcIntersectionPassingTime`
(lines 424-464): the initial velocity is `max(1e-01, |current velocity|)`,
the profile starts at `(0, 0)`, and when the objective lane id is never
found the degenerate profile `[(0, 0)]` is returned. -/
def calcIntersectionPassingTime (sqrtFn : ℚ → ℚ) (maxAcc vCap currentVel : ℚ)
    (segs : List (ℚ × Bool)) : List (ℚ × ℚ) :=
  let r := passingTimeLoop sqrtFn maxAcc vCap (max (1 / 10) |currentVel|) 0 0 false segs
  if r.2 then (0, 0) :: r.1 else [(0, 0)]

/-- Second definition following the words of the spec (§4.3) for the claim
about the time-distance profile: "for each segment of length d, the next
velocity satisfies v_next = min(sqrt(v_cur² + 2·a_max·d), v_cap); the
segment's average speed is min((v_cur+v_next)/2, v_cap); elapsed time
accumulates d / average_speed", applied to a plain list of segment
lengths. -/
def specProfileAux (sqrtFn : ℚ → ℚ) (maxAcc vCap : ℚ) :
    ℚ → ℚ → ℚ → List ℚ → List (ℚ × ℚ)
  | _, _, _, [] => []
  | v, t, s, d :: rest =>
    let nextVel := min (sqrtFn (v * v + 2 * maxAcc * d)) vCap
    let averageVel := min ((v + nextVel) / 2) vCap
    (t + d / averageVel, s + d) ::
      specProfileAux sqrtFn maxAcc vCap nextVel (t + d / averageVel) (s + d) rest

/-- Second definition following the words of the spec for the truncation
point of the profile: the number of segments processed before the scan
stops, namely all segments up to and including the first one whose end
point is no longer tagged after the tag has been seen at least once. -/
def specSegCount : Bool → List (ℚ × Bool) → ℕ
  | _, [] => 0
  | found, (_, tag) :: rest => if found && !tag then 1 else specSegCount tag rest + 1

/-- Parameter record for `checkCollision`: the planner parameters it reads
together with the geometry oracles.  `polyHit` is
`bg::intersects(ego_poly, to_bg2d(predicted_path.path))` as a function of
the pose list; `segHit a b` is the segment test of the two `adjacent_find`
calls; `footHit oid (start, end) p` is
`bg::intersects(trimmed_polygon, footprint)` for the footprint of object
`oid` at predicted pose `p` against the ego corridor trimmed to the arc
interval `(start, end)`.  `closestArcLength`, `distanceUntilIntersection`
and `baseLink2front` are the scalar geometry inputs of lines 288-293. -/
structure CollisionParams where
  minPredictedPathConfidence : ℚ
  collisionStartMarginTime : ℚ
  collisionEndMarginTime : ℚ
  closestArcLength : ℚ
  distanceUntilIntersection : ℚ
  baseLink2front : ℚ
  now : ℚ
  polyHit : List Pose → Bool
  segHit : Pose → Pose → Bool
  footHit : ℕ → ℚ × ℚ → Pose → Bool

/-- Index of the first adjacent pose pair hitting the ego polygon:
`std::adjacent_find(path.cbegin(), path.cend(), ...)` of line 306. -/
def firstSegHitIdx (segHit : Pose → Pose → Bool) : List Pose → Option ℕ
  | a :: b :: rest =>
    if segHit a b then some 0 else (firstSegHitIdx segHit (b :: rest)).map (· + 1)
  | _ => none

/-- Index of the last adjacent pose pair hitting the ego polygon:
`std::adjacent_find(path.crbegin(), path.crend(), ...)` of line 311,
expressed as an index into the forward list. -/
def lastSegHitIdx (segHit : Pose → Pose → Bool) : List Pose → Option ℕ
  | a :: b :: rest =>
    match lastSegHitIdx segHit (b :: rest) with
    | some j => some (j + 1)
    | none => if segHit a b then some 0 else none
  | _ => none

/-- `std::lower_bound` over the time-distance array ordered by the time
component (lines 321-337): the first index whose time is not less than `t`,
`none` when the search hits the end. -/
def lowerBoundIdx (profile : List (ℚ × ℚ)) (t : ℚ) : Option ℕ :=
  profile.findIdx? (fun p => decide (t ≤ p.1))

/-- Processing of one predicted path inside the object loop of
`checkCollision` (lines 299-374), up to the point where the
`if (collision_detected)` test would run.  Returns `none` when the path is
skipped before reaching that test (confidence below cutoff, polyline not
intersecting the ego polygon, no adjacent hitting segment, or the
start-time lower bound running off the profile, line 327); otherwise
`some hit` where `hit` says whether some predicted pose in the
first-to-last hitting segment range has a footprint intersecting the
trimmed ego polygon. -/
def ppWindowAndHit (P : CollisionParams) (profile : List (ℚ × ℚ)) (oid : ℕ)
    (pp : PredictedPath) : Option Bool :=
  if pp.confidence < P.minPredictedPathConfidence then none
  else if !P.polyHit pp.path then none
  else
    match firstSegHitIdx P.segHit pp.path, lastSegHitIdx P.segHit pp.path with
    | some fi, some li =>
      let headStamp := ((pp.path.head?).map Pose.stamp).getD 0
      let enterTime := (((pp.path[fi]?).map Pose.stamp).getD 0) - headStamp
      let exitTime := (((pp.path[li + 1]?).map Pose.stamp).getD 0) - headStamp
      let startIdxOpt : Option ℕ :=
        if 0 < enterTime - P.collisionStartMarginTime then
          lowerBoundIdx profile (enterTime - P.collisionStartMarginTime)
        else some 0
      match startIdxOpt with
      | none => none
      | some si =>
        let ei := (lowerBoundIdx profile (exitTime + P.collisionEndMarginTime)).getD
          (profile.length - 1)
        let startArcLength :=
          max 0 (P.closestArcLength + ((profile[si]?).getD (0, 0)).2 -
            P.distanceUntilIntersection)
        let endArcLength :=
          max 0 (P.closestArcLength + ((profile[ei]?).getD (0, 0)).2 +
            P.baseLink2front - P.distanceUntilIntersection)
        let poses := (pp.path.drop fi).take (li + 2 - fi)
        some (poses.any (fun ps => P.footHit oid (startArcLength, endArcLength) ps))
    | _, _ => none

/-- The predicted-path loop of `checkCollision` for one object, threading
the outer (function-scoped, never reset) `collision_detected` flag `cd`.
Returns the updated flag, whether the object was pushed onto
`conflicting_targets` (which also breaks the loop), and how many polyline
spatial-intersection tests (line 304) were executed. -/
def processObjectPPs (P : CollisionParams) (profile : List (ℚ × ℚ)) (oid : ℕ) :
    Bool → List PredictedPath → Bool × Bool × ℕ
  | cd, [] => (cd, false, 0)
  | cd, pp :: rest =>
    let tests : ℕ := if pp.confidence < P.minPredictedPathConfidence then 0 else 1
    match ppWindowAndHit P profile oid pp with
    | none =>
      let r := processObjectPPs P profile oid cd rest
      (r.1, r.2.1, tests + r.2.2)
    | some hit =>
      let cd2 := cd || hit
      if cd2 then (cd2, true, tests)
      else
        let r := processObjectPPs P profile oid cd2 rest
        (r.1, r.2.1, tests + r.2.2)

/-- The object loop of `checkCollision` (lines 296-376): the sticky
`collision_detected` flag is threaded through every object; pushed objects
are collected in order. -/
def collisionObjectLoop (P : CollisionParams) (profile : List (ℚ × ℚ)) :
    Bool → List DynObject → Bool × List ℕ × ℕ
  | cd, [] => (cd, [], 0)
  | cd, o :: rest =>
    let r := processObjectPPs P profile o.oid cd o.predictedPaths
    let rr := collisionObjectLoop P profile r.1 rest
    (rr.1, (if r.2.1 then [o.oid] else []) ++ rr.2.1, r.2.2 + rr.2.2)

/-- Translation of `IntersectionModule::cutPredictPathWithDuration`
(lines 213-228): every predicted pose whose stamp, relative to the current
clock time, is not less than the threshold is dropped. -/
def cutPredictPathWithDuration (now timeThr : ℚ) (objects : List DynObject) :
    List DynObject :=
  objects.map (fun o =>
    ⟨o.oid, o.semanticType, o.vx, o.inEgoLane, o.nearDetectionAreaOk,
      o.predictedPaths.map (fun pp =>
        ⟨pp.confidence, pp.path.filter (fun ps => decide (ps.stamp - now < timeThr))⟩)⟩)

/-- The outcome of `checkCollision`: its boolean return value, the object
ids pushed onto `debug_data_.conflicting_targets`, and the number of
polyline spatial-intersection tests executed. -/
structure CollisionOutcome where
  detected : Bool
  conflictingTargets : List ℕ
  spatialTests : ℕ
deriving DecidableEq, Repr

/-- Translation of `IntersectionModule::checkCollision` (lines 230-379):
filter target objects (vehicle type, not within the ego lane, near a
detection area with a compatible heading), truncate their predicted paths
to the passing time taken from the back of the time-distance array, then
run the collision loop with the sticky `collision_detected` flag. -/
def checkCollision (P : CollisionParams) (profile : List (ℚ × ℚ))
    (objects : List DynObject) : CollisionOutcome :=
  let targetObjects := objects.filter (fun o =>
    isTargetCollisionVehicleType o && !o.inEgoLane && o.nearDetectionAreaOk)
  let passingTime := ((profile.getLast?).getD (0, 0)).1
  let cutObjects := cutPredictPathWithDuration P.now passingTime targetObjects
  let r := collisionObjectLoop P profile false cutObjects
  ⟨r.1, r.2.1, r.2.2⟩

/-- The true geometric intersection test for one object, as the claim about
the diagnostic list states it: some predicted path of sufficient confidence
whose polyline enters the ego corridor and whose pose range between the
first and last corridor-entering segments contains a pose whose footprint
intersects the trimmed ego corridor. -/
def objectTrulyCollides (P : CollisionParams) (profile : List (ℚ × ℚ))
    (o : DynObject) : Bool :=
  o.predictedPaths.any (fun pp => (ppWindowAndHit P profile o.oid pp).getD false)

/-- Translation of the `is_stop_required` computation of
`modifyPathVelocity` line 182: stuck vehicle detected, or the assigned
lanelet has no traffic-light regulatory element, or its turn direction
attribute differs from "straight". -/
def isStopRequired (isStuck hasTrafficLight : Bool) (turnDirection : String) : Bool :=
  isStuck || !hasTrafficLight || !(turnDirection == "straight")

/-- Modelled from the spec: `util::setVelocityFrom` is not among the
sources; per the spec's Velocity Profile Writer (§4.7, "write zero velocity
at the stop-line index if hard-stop required, else a configured decel
velocity") it writes the given velocity at the stop-line index and every
following index. -/
def setVelocityFrom : ℕ → ℚ → List ℚ → List ℚ
  | _, _, [] => []
  | 0, v, _ :: ws => v :: setVelocityFrom 0 v ws
  | n + 1, v, w :: ws => w :: setVelocityFrom n v ws

/-- One immutable input snapshot of a `modifyPathVelocity` cycle.  The
fields are the outcomes, on this snapshot, of the subroutines the cycle
calls: `stopLineResult` models `util::generateStopLine` (modelled from the
spec §4.2 as a pure index computation with soft failure), `closestIdx`
models `planning_utils::calcClosestIndex`, `isAheadOfPassJudge` the
`util::isAheadOf` tie-break of line 150, `hasCollision` / `isStuck` the
detector results (functions of the snapshot only), `externalGo` /
`externalStop` the values of `isTargetExternalInputStatus` for GO and STOP,
and `vels` the target-velocity column of the input path. -/
structure CycleEnv where
  detectionAreasEmpty : Bool
  stopLineResult : Option (ℤ × ℤ)
  closestIdx : Option ℤ
  isAheadOfPassJudge : Bool
  hasCollision : Bool
  isStuck : Bool
  externalGo : Bool
  externalStop : Bool
  now : ℚ
  hasTrafficLight : Bool
  turnDirection : String
  decelVelocity : ℚ
  vels : List ℚ
deriving DecidableEq, Repr

/-- The observable outcome of one `modifyPathVelocity` cycle: the boolean
return value, the state machine after the cycle, the output velocity
column, and whether the collision and stuck evaluations were executed
(lines 162-168 are only reached past the early returns). -/
structure CycleResult where
  success : Bool
  sm : StateMachine
  vels : List ℚ
  collisionChecked : Bool
  stuckChecked : Bool
deriving DecidableEq, Repr

/-- The requested state computed from the snapshot's detector results and
external overrides (lines 169-176). -/
def requestedFromEnv (env : CycleEnv) : State :=
  if isEntryProhibited env.externalGo env.externalStop env.hasCollision env.isStuck
  then State.STOP else State.GO

/-- The velocity value written on a STOP decision (lines 180-183):
`stop_vel = 0` when a hard stop is required, the configured decel velocity
otherwise. -/
def plannedStopVelocity (env : CycleEnv) : ℚ :=
  if isStopRequired env.isStuck env.hasTrafficLight env.turnDirection then 0
  else env.decelVelocity

/-- The tail of `modifyPathVelocity` past the early returns (lines 158-210):
compute `is_entry_prohibited`, update the state machine with margin time,
and when the resulting state is STOP write the stop or decel velocity from
the stop-line index onward. -/
def mainBranch (marginTime : ℚ) (env : CycleEnv) (sm : StateMachine)
    (stopLineIdx : ℤ) : CycleResult :=
  ⟨true,
   setStateWithMarginTime marginTime sm (requestedFromEnv env) env.now,
   if (setStateWithMarginTime marginTime sm (requestedFromEnv env) env.now).state =
       State.STOP then
     setVelocityFrom stopLineIdx.toNat (plannedStopVelocity env) env.vels
   else env.vels,
   true, true⟩

/-- Translation of `IntersectionModule::modifyPathVelocity` (lines 71-211)
over one snapshot: empty detection areas and a stop line at path start are
successful no-ops; stop-line generation or closest-index failure aborts the
cycle; while in GO past the pass-judge line with no external stop the cycle
is a successful no-op with no detector evaluation; otherwise the detectors,
the state machine and the velocity writer run. -/
def modifyPathVelocity (marginTime : ℚ) (env : CycleEnv) (sm : StateMachine) :
    CycleResult :=
  if env.detectionAreasEmpty then ⟨true, sm, env.vels, false, false⟩
  else
    match env.stopLineResult with
    | none => ⟨false, sm, env.vels, false, false⟩
    | some (stopLineIdx, passJudgeIdx) =>
      if stopLineIdx ≤ 0 ∨ passJudgeIdx ≤ 0 then ⟨true, sm, env.vels, false, false⟩
      else
        match env.closestIdx with
        | none => ⟨false, sm, env.vels, false, false⟩
        | some closestIdx =>
          if sm.state = State.GO ∧
              (passJudgeIdx < closestIdx ∨
                (closestIdx = passJudgeIdx ∧ env.isAheadOfPassJudge = true)) ∧
              env.externalStop = false
          then ⟨true, sm, env.vels, false, false⟩
          else mainBranch marginTime env sm stopLineIdx

/-! ### Concrete inputs used as counterexamples and witnesses -/

/-- Concrete snapshot for the hard-stop claim: final state STOP with an
active collision, traffic light present, straight turn direction, and a
configured decel velocity of zero. -/
def envC3 : CycleEnv :=
  ⟨false, some (1, 1), some 0, false, true, false, false, false, 0, true, "straight",
    0, [5, 5]⟩

/-- Concrete snapshot for the idempotence claim, exercised with a negative
margin time: nothing detected, no traffic light, stop line at index 1. -/
def envC8 : CycleEnv :=
  ⟨false, some (1, 1), some 0, false, false, false, false, false, 0, false, "straight",
    3, [5, 5]⟩

/-- Concrete snapshot for the latched pass-through claim: GO state, closest
index 5 beyond pass-judge index 2, collision and stuck flags asserted. -/
def envC4 : CycleEnv :=
  ⟨false, some (1, 2), some 5, false, true, true, false, false, 0, true, "straight",
    3, [7]⟩

/-- Object that truly collides in the diagnostic-list counterexample. -/
def objAC5 : DynObject := ⟨1, SemanticType.CAR, 0, false, true, [⟨1, [⟨0, 0⟩, ⟨1, 1⟩]⟩]⟩

/-- Object whose predicted polyline crosses the corridor but whose footprint
never intersects the trimmed polygon (its pose ids are 10 and 11, which the
footprint oracle rejects). -/
def objBC5 : DynObject := ⟨2, SemanticType.CAR, 0, false, true, [⟨1, [⟨10, 0⟩, ⟨11, 1⟩]⟩]⟩

/-- Oracles for the diagnostic-list counterexample: every two-pose polyline
crosses the corridor, every segment hits, but only object 1's footprint
intersects the trimmed polygon. -/
def paramsC5 : CollisionParams :=
  ⟨0, 0, 0, 0, 0, 0, 0,
   fun l => decide (2 ≤ l.length),
   fun _ _ => true,
   fun oid _ _ => decide (oid = 1)⟩

/-- Time-distance profile used in the diagnostic-list counterexample. -/
def profileC5 : List (ℚ × ℚ) := [(0, 0), (10, 100)]

/-- Square-root oracle for the degenerate-profile counterexample (its value
is irrelevant to the outcome). -/
def sqC6 : ℚ → ℚ := fun _ => 2

/-- A single path segment never tagged with the objective lane id. -/
def segsC6 : List (ℚ × Bool) := [(5, false)]

/-- Object with predicted poses stamped before the current clock time, so
they survive the duration cut at threshold zero. -/
def objC6 : DynObject :=
  ⟨1, SemanticType.CAR, 0, false, true, [⟨1, [⟨0, -1⟩, ⟨1, -(1 / 2)⟩]⟩]⟩

/-- Oracles for the degenerate-profile counterexample: everything
intersects. -/
def paramsC6 : CollisionParams :=
  ⟨0, 0, 0, 0, 0, 0, 0,
   fun l => decide (2 ≤ l.length),
   fun _ _ => true,
   fun _ _ _ => true⟩

/-! ### State machine lemmas -/

theorem runSM_append (marginTime : ℚ) (sm : StateMachine) (l : List (State × ℚ))
    (x : State × ℚ) :
    runSM marginTime sm (l ++ [x]) =
      setStateWithMarginTime marginTime (runSM marginTime sm l) x.1 x.2 := by
  simp [runSM, List.foldl_append]

theorem runSM_startTime_inv (marginTime : ℚ) (sm0 : StateMachine)
    (trace : List (State × ℚ)) (h0 : sm0.startTime = none) :
    ∀ t0 : ℚ, (runSM marginTime sm0 trace).startTime = some t0 →
      (runSM marginTime sm0 trace).state = State.STOP ∧
      ∃ pre suf, trace = pre ++ suf ∧ suf.head? = some (State.GO, t0) ∧
        ∀ p ∈ suf, p.1 = State.GO := by
  induction trace using List.reverseRecOn with
  | nil =>
    intro t0 h
    rw [show runSM marginTime sm0 [] = sm0 from rfl, h0] at h
    exact absurd h (by simp)
  | append_singleton l x ih =>
    intro t0 h
    rw [runSM_append] at h
    obtain ⟨rs, rt⟩ := x
    by_cases h1 : (runSM marginTime sm0 l).state = rs
    · rw [setStateWithMarginTime] at h
      simp [h1] at h
    · by_cases h2 : rs = State.STOP
      · subst h2
        rw [setStateWithMarginTime] at h
        by_cases hq : (runSM marginTime sm0 l).state = State.STOP <;> simp [hq] at h
      · have hrs : rs = State.GO := by cases rs <;> simp_all
        have hss : (runSM marginTime sm0 l).state = State.STOP := by
          cases hq : (runSM marginTime sm0 l).state <;> simp_all
        cases hst : (runSM marginTime sm0 l).startTime with
        | none =>
          rw [setStateWithMarginTime] at h
          simp [h1, h2, hst] at h
          subst hrs
          refine ⟨?_, l, [(State.GO, rt)], by simp, by simp [h], by simp⟩
          rw [runSM_append, setStateWithMarginTime]
          simp [h1, h2, hst, hss]
        | some u =>
          by_cases h3 : marginTime < rt - u
          · rw [setStateWithMarginTime] at h
            simp [h1, h2, hst, h3] at h
          · have h4 : u = t0 := by
              rw [setStateWithMarginTime] at h
              simpa [h1, h2, hst, h3] using h
            subst h4
            obtain ⟨hstop, pre, suf, hsplit, hhead, hall⟩ := ih u hst
            subst hrs
            refine ⟨?_, pre, suf ++ [(State.GO, rt)], by rw [hsplit]; simp, ?_, ?_⟩
            · rw [runSM_append, setStateWithMarginTime]
              simp [h1, h2, hst, h3, hss]
            · cases suf with
              | nil => simp at hhead
              | cons a as => simpa using hhead
            · intro p hp
              rcases List.mem_append.1 hp with hp | hp
              · exact hall p hp
              · simp at hp
                rw [hp]

theorem external_status_not_both (input : Option ExternalStatusRecord)
    (now timeout : ℚ)
    (hgo : isTargetExternalInputStatus input now timeout IntersectionStatusGO = true)
    (hstop : isTargetExternalInputStatus input now timeout IntersectionStatusSTOP = true) :
    False := by
  cases input with
  | none => simp [isTargetExternalInputStatus] at hgo
  | some r =>
    simp [isTargetExternalInputStatus, IntersectionStatusGO, IntersectionStatusSTOP]
      at hgo hstop
    omega

/-! ### Claim theorems: state machine and overrides -/

/-- C1: starting from a machine with no pending timestamp, a STOP→GO
transition at an evaluation at time `t` happens only when the requested
states since some point of the trace form an uninterrupted all-GO suffix
whose first evaluation, at time `t0`, satisfies `marginTime < t - t0`;
a STOP request always clears the pending timestamp; a request equal to the
current state clears the pending timestamp and leaves the state unchanged
(in particular a GO request while already GO); and a GO request with no
pending timestamp records the current time, restarting the debounce from
zero elapsed time. -/
theorem C1_debounce_margin (marginTime : ℚ) (sm0 : StateMachine)
    (trace : List (State × ℚ)) (t : ℚ) (h0 : sm0.startTime = none) :
    ((runSM marginTime sm0 trace).state = State.STOP →
      (setStateWithMarginTime marginTime (runSM marginTime sm0 trace)
          State.GO t).state = State.GO →
      ∃ pre suf t0, trace = pre ++ suf ∧ suf.head? = some (State.GO, t0) ∧
        (∀ p ∈ suf, p.1 = State.GO) ∧ marginTime < t - t0) ∧
    (∀ sm : StateMachine,
      (setStateWithMarginTime marginTime sm State.STOP t).startTime = none) ∧
    (∀ sm : StateMachine,
      setStateWithMarginTime marginTime sm sm.state t = ⟨sm.state, none⟩) ∧
    (setStateWithMarginTime marginTime ⟨State.STOP, none⟩ State.GO t =
      ⟨State.STOP, some t⟩) := by
  refine ⟨?_, ?_, ?_, ?_⟩
  · intro hstop hgo
    have h1 : ¬((runSM marginTime sm0 trace).state = State.GO) := by
      rw [hstop]; simp
    cases hst : (runSM marginTime sm0 trace).startTime with
    | none =>
      rw [setStateWithMarginTime] at hgo
      simp [hstop, hst] at hgo
    | some u =>
      by_cases h3 : marginTime < t - u
      · obtain ⟨_, pre, suf, hsplit, hhead, hall⟩ :=
          runSM_startTime_inv marginTime sm0 trace h0 u hst
        exact ⟨pre, suf, u, hsplit, hhead, hall, h3⟩
      · rw [setStateWithMarginTime] at hgo
        simp [hstop, hst, h3] at hgo
  · intro sm
    rw [setStateWithMarginTime]
    by_cases h : sm.state = State.STOP <;> simp [h]
  · intro sm
    rw [setStateWithMarginTime]
    simp
  · rw [setStateWithMarginTime]
    simp

/-- Witness for C1 at a concrete input: a first GO request while STOP with
no pending timestamp records the time and stays STOP. -/
theorem C1_debounce_margin_witness :
    setStateWithMarginTime 1 ⟨State.STOP, none⟩ State.GO 5 = ⟨State.STOP, some 5⟩ :=
  (C1_debounce_margin 1 ⟨State.STOP, none⟩ [] 5 rfl).2.2.2

/-- C2: an active external-GO record forces the requested state to GO
regardless of detection results; an active external-STOP record forces it
to STOP; and were both records somehow active at once the requested state
would be STOP (an antecedent that lemma `external_status_not_both` shows
can never hold, since both activations read the single status field of one
record). -/
theorem C2_override_precedence (input : Option ExternalStatusRecord)
    (now timeout : ℚ) (hasCollision isStuck : Bool) :
    (isTargetExternalInputStatus input now timeout IntersectionStatusGO = true →
      requestedState input now timeout hasCollision isStuck = State.GO) ∧
    (isTargetExternalInputStatus input now timeout IntersectionStatusSTOP = true →
      requestedState input now timeout hasCollision isStuck = State.STOP) ∧
    (isTargetExternalInputStatus input now timeout IntersectionStatusGO = true ∧
      isTargetExternalInputStatus input now timeout IntersectionStatusSTOP = true →
      requestedState input now timeout hasCollision isStuck = State.STOP) := by
  refine ⟨?_, ?_, ?_⟩
  · intro hgo
    simp [requestedState, isEntryProhibited, hgo]
  · intro hstop
    have hgo : isTargetExternalInputStatus input now timeout IntersectionStatusGO = false := by
      cases hq : isTargetExternalInputStatus input now timeout IntersectionStatusGO with
      | false => rfl
      | true => exact absurd (external_status_not_both input now timeout hq hstop) (by simp)
    simp [requestedState, isEntryProhibited, hgo, hstop]
  · rintro ⟨hgo, hstop⟩
    exact absurd (external_status_not_both input now timeout hgo hstop) (by simp)

/-- Witness for C2 at a concrete input: a fresh GO record overrides an
active collision detection. -/
theorem C2_override_precedence_witness :
    requestedState (some ⟨IntersectionStatusGO, 0⟩) 0 1 true true = State.GO :=
  (C2_override_precedence (some ⟨IntersectionStatusGO, 0⟩) 0 1 true true).1
    (by norm_num [isTargetExternalInputStatus, IntersectionStatusGO])

/-- C9: the external-GO and external-STOP conditions are both computed by
`isTargetExternalInputStatus` from the status field of the single external
record, so they can never hold in the same cycle; the both-asserted case is
unreachable at the state-machine input. -/
theorem C9_externals_mutually_exclusive (input : Option ExternalStatusRecord)
    (now timeout : ℚ) :
    ¬(isTargetExternalInputStatus input now timeout IntersectionStatusGO = true ∧
      isTargetExternalInputStatus input now timeout IntersectionStatusSTOP = true) :=
  fun h => external_status_not_both input now timeout h.1 h.2

/-- Witness for C9 at a concrete input. -/
theorem C9_externals_mutually_exclusive_witness :
    ¬(isTargetExternalInputStatus (some ⟨IntersectionStatusGO, 0⟩) 0 1
        IntersectionStatusGO = true ∧
      isTargetExternalInputStatus (some ⟨IntersectionStatusGO, 0⟩) 0 1
        IntersectionStatusSTOP = true) :=
  C9_externals_mutually_exclusive (some ⟨IntersectionStatusGO, 0⟩) 0 1

/-- C10: the collision filter accepts CAR, BUS, TRUCK, MOTORBIKE and
BICYCLE while the stuck filter accepts only CAR, BUS, TRUCK and MOTORBIKE;
consequently dropping every BICYCLE object from a snapshot never changes
the stuck-vehicle result, i.e. a BICYCLE can never trigger the stuck
condition. -/
theorem C10_vehicle_type_filters :
    (∀ o : DynObject, o.semanticType = SemanticType.BICYCLE →
      isTargetCollisionVehicleType o = true ∧ isTargetStuckVehicleType o = false) ∧
    (∀ (thr : ℚ) (inStuckArea : ℕ → Bool) (objects : List DynObject),
      checkStuckVehicleInIntersection thr inStuckArea
        (objects.filter (fun o => !(o.semanticType == SemanticType.BICYCLE))) =
      checkStuckVehicleInIntersection thr inStuckArea objects) := by
  constructor
  · intro o h
    constructor
    · simp [isTargetCollisionVehicleType, h]
    · simp [isTargetStuckVehicleType, h]
  · intro thr inStuckArea objects
    induction objects with
    | nil => rfl
    | cons o rest ih =>
      by_cases hb : o.semanticType = SemanticType.BICYCLE
      · have hstuck : isTargetStuckVehicleType o = false := by
          simp [isTargetStuckVehicleType, hb]
        simp [checkStuckVehicleInIntersection, List.filter_cons, hb, hstuck] at ih ⊢
        exact ih
      · simp [checkStuckVehicleInIntersection, List.filter_cons, hb] at ih ⊢
        rw [ih]

/-- Witness for C10 at a concrete input: a stationary bicycle inside the
stuck-detection corridor does not trigger the stuck condition. -/
theorem C10_vehicle_type_filters_witness :
    isTargetStuckVehicleType ⟨0, SemanticType.BICYCLE, 0, false, true, []⟩ = false :=
  (C10_vehicle_type_filters.1 ⟨0, SemanticType.BICYCLE, 0, false, true, []⟩ rfl).2

/-! ### Time-distance profile lemmas -/

theorem passingTimeLoop_fst (sqrtFn : ℚ → ℚ) (maxAcc vCap : ℚ) :
    ∀ (segs : List (ℚ × Bool)) (v t s : ℚ) (found : Bool),
      (passingTimeLoop sqrtFn maxAcc vCap v t s found segs).1 =
        specProfileAux sqrtFn maxAcc vCap v t s
          ((segs.take (specSegCount found segs)).map Prod.fst) := by
  intro segs
  induction segs with
  | nil => intro v t s found; rfl
  | cons seg rest ih =>
    intro v t s found
    obtain ⟨d, tag⟩ := seg
    by_cases hb : (found && !tag) = true
    · simp [passingTimeLoop, specSegCount, specProfileAux, hb]
    · simp [passingTimeLoop, specSegCount, specProfileAux, hb, ih]

theorem passingTimeLoop_snd (sqrtFn : ℚ → ℚ) (maxAcc vCap : ℚ) :
    ∀ (segs : List (ℚ × Bool)) (v t s : ℚ) (found : Bool),
      (passingTimeLoop sqrtFn maxAcc vCap v t s found segs).2 =
        (found || segs.any Prod.snd) := by
  intro segs
  induction segs with
  | nil => intro v t s found; simp [passingTimeLoop]
  | cons seg rest ih =>
    intro v t s found
    obtain ⟨d, tag⟩ := seg
    cases found <;> cases tag <;> simp [passingTimeLoop, ih]

theorem calcIntersectionPassingTime_degenerate (sqrtFn : ℚ → ℚ)
    (maxAcc vCap v0 : ℚ) (segs : List (ℚ × Bool)) (h : segs.any Prod.snd = false) :
    calcIntersectionPassingTime sqrtFn maxAcc vCap v0 segs = [(0, 0)] := by
  simp [calcIntersectionPassingTime, passingTimeLoop_snd, h]

/-! ### Claim theorems: time-distance profile -/

/-- C7: when the objective lane id is found somewhere ahead, the
time-distance profile starts at (0,0) with initial speed
`max(1/10, |current speed|)` and equals the profile built by the spec's
per-segment recurrence (next speed `min(sqrt(v² + 2·a·d), v_cap)`, average
speed `min((v+v_next)/2, v_cap)`, time increment `d / average`), truncated
after the first segment whose end point is no longer tagged once the tag
has been seen. -/
theorem C7_profile_refines_spec (sqrtFn : ℚ → ℚ) (maxAcc vCap v0 : ℚ)
    (segs : List (ℚ × Bool)) (h : segs.any Prod.snd = true) :
    calcIntersectionPassingTime sqrtFn maxAcc vCap v0 segs =
      (0, 0) :: specProfileAux sqrtFn maxAcc vCap (max (1 / 10) |v0|) 0 0
        ((segs.take (specSegCount false segs)).map Prod.fst) := by
  simp [calcIntersectionPassingTime, passingTimeLoop_snd, h, passingTimeLoop_fst]

/-- Witness for C7 at a concrete input. -/
theorem C7_profile_refines_spec_witness :
    calcIntersectionPassingTime sqC6 1 3 1 [(1, true), (2, false)] =
      (0, 0) :: specProfileAux sqC6 1 3 (max (1 / 10) |(1 : ℚ)|) 0 0
        (([((1 : ℚ), true), (2, false)].take
          (specSegCount false [((1 : ℚ), true), (2, false)])).map Prod.fst) :=
  C7_profile_refines_spec sqC6 1 3 1 [(1, true), (2, false)] (by decide)

/-! ### Degenerate-profile lemmas -/

theorem processObjectPPs_emptyPaths (P : CollisionParams) (profile : List (ℚ × ℚ))
    (oid : ℕ) (hpoly : P.polyHit [] = false) :
    ∀ (pps : List PredictedPath), (∀ pp ∈ pps, pp.path = ([] : List Pose)) →
      ∀ cd : Bool, (processObjectPPs P profile oid cd pps).1 = cd ∧
        (processObjectPPs P profile oid cd pps).2.1 = false := by
  intro pps
  induction pps with
  | nil => intro _ cd; exact ⟨rfl, rfl⟩
  | cons pp rest ih =>
    intro hall cd
    have hpp : pp.path = [] := hall pp (by simp)
    have hw : ppWindowAndHit P profile oid pp = none := by
      rw [ppWindowAndHit, hpp, hpoly]
      simp
    have hr := ih (fun q hq => hall q (by simp [hq])) cd
    simp [processObjectPPs, hw, hr.1, hr.2]

theorem collisionObjectLoop_emptyPaths (P : CollisionParams) (profile : List (ℚ × ℚ))
    (hpoly : P.polyHit [] = false) :
    ∀ (objs : List DynObject), (∀ o ∈ objs, ∀ pp ∈ o.predictedPaths, pp.path = ([] : List Pose)) →
      ∀ cd : Bool, (collisionObjectLoop P profile cd objs).1 = cd := by
  intro objs
  induction objs with
  | nil => intro _ cd; rfl
  | cons o rest ih =>
    intro hall cd
    have ho := (processObjectPPs_emptyPaths P profile o.oid hpoly o.predictedPaths
      (hall o (by simp)) cd).1
    have hr := ih (fun q hq => hall q (by simp [hq])) cd
    simp [collisionObjectLoop, ho, hr]

/-! ### Claim theorems: degenerate profile -/

/-- C6 counterexample: with the objective lane id never tagged the profile
is the degenerate `[(0, 0)]`, yet downstream collision testing is not
skipped: for an object whose predicted poses are stamped before the current
clock time a polyline spatial-intersection test is executed and a collision
is even detected. -/
theorem C6_counterexample :
    calcIntersectionPassingTime sqC6 1 3 1 segsC6 = [(0, 0)] ∧
    (checkCollision paramsC6 (calcIntersectionPassingTime sqC6 1 3 1 segsC6)
      [objC6]).spatialTests = 1 ∧
    (checkCollision paramsC6 (calcIntersectionPassingTime sqC6 1 3 1 segsC6)
      [objC6]).detected = true := by
  norm_num [calcIntersectionPassingTime, passingTimeLoop, checkCollision,
    cutPredictPathWithDuration, collisionObjectLoop, processObjectPPs,
    ppWindowAndHit, firstSegHitIdx, lastSegHitIdx, lowerBoundIdx,
    isTargetCollisionVehicleType, List.findIdx?, sqC6, segsC6, objC6, paramsC6]

/-- C6 (amended): when the objective lane id is never found ahead of the
closest index the profile is the degenerate `[(0, 0)]` and predicted paths
are truncated at duration zero; spatial tests still run on the truncated
paths, but if every predicted pose is stamped at or after the current time
every truncated path is empty and no collision is detected. -/
theorem C6_degenerate_profile (sqrtFn : ℚ → ℚ) (maxAcc vCap v0 : ℚ)
    (segs : List (ℚ × Bool)) (P : CollisionParams) (objects : List DynObject)
    (h : segs.any Prod.snd = false)
    (hpoly : P.polyHit [] = false)
    (hfuture : ∀ o ∈ objects, ∀ pp ∈ o.predictedPaths, ∀ ps ∈ pp.path, P.now ≤ ps.stamp) :
    calcIntersectionPassingTime sqrtFn maxAcc vCap v0 segs = [(0, 0)] ∧
    (checkCollision P (calcIntersectionPassingTime sqrtFn maxAcc vCap v0 segs)
        objects).detected = false := by
  have hdeg := calcIntersectionPassingTime_degenerate sqrtFn maxAcc vCap v0 segs h
  refine ⟨hdeg, ?_⟩
  rw [hdeg]
  rw [checkCollision]
  have hempty : ∀ o ∈ cutPredictPathWithDuration P.now
      ((([((0 : ℚ), (0 : ℚ))].getLast?).getD (0, 0)).1)
      (objects.filter (fun o =>
        isTargetCollisionVehicleType o && !o.inEgoLane && o.nearDetectionAreaOk)),
      ∀ pp ∈ o.predictedPaths, pp.path = ([] : List Pose) := by
    intro o ho pp hpp
    rw [cutPredictPathWithDuration] at ho
    obtain ⟨o0, ho0, rfl⟩ := List.mem_map.1 ho
    have ho0m : o0 ∈ objects := List.mem_of_mem_filter ho0
    simp only [List.mem_map] at hpp
    obtain ⟨pp0, hpp0, rfl⟩ := hpp
    simp only [List.getLast?, List.getLast, Option.getD] at *
    rw [List.filter_eq_nil_iff]
    intro ps hps
    have := hfuture o0 ho0m pp0 hpp0 ps hps
    simp only [decide_eq_true_eq]
    intro hcon
    have : ps.stamp - P.now < 0 := by simpa using hcon
    linarith
  have := collisionObjectLoop_emptyPaths P [((0 : ℚ), (0 : ℚ))] hpoly _ hempty false
  simpa using this

/-- Witness for C6 (amended) at a concrete input: one object whose only
predicted pose is stamped after the clock time. -/
theorem C6_degenerate_profile_witness :
    calcIntersectionPassingTime sqC6 1 3 1 [((5 : ℚ), false)] = [(0, 0)] ∧
    (checkCollision
      ⟨0, 0, 0, 0, 0, 0, 0, fun _ => false, fun _ _ => true, fun _ _ _ => true⟩
      (calcIntersectionPassingTime sqC6 1 3 1 [((5 : ℚ), false)])
      [⟨1, SemanticType.CAR, 0, false, true, [⟨1, [⟨0, 7⟩]⟩]⟩]).detected = false :=
  C6_degenerate_profile sqC6 1 3 1 [((5 : ℚ), false)]
    ⟨0, 0, 0, 0, 0, 0, 0, fun _ => false, fun _ _ => true, fun _ _ _ => true⟩
    [⟨1, SemanticType.CAR, 0, false, true, [⟨1, [⟨0, 7⟩]⟩]⟩]
    (by decide) rfl
    (by intro o ho pp hpp ps hps
        simp at ho
        subst ho
        simp at hpp
        subst hpp
        simp at hps
        subst hps
        norm_num)

/-! ### Collision-loop invariant lemmas -/

theorem processObjectPPs_fst (P : CollisionParams) (profile : List (ℚ × ℚ)) (oid : ℕ) :
    ∀ (pps : List PredictedPath) (cd : Bool),
      (processObjectPPs P profile oid cd pps).1 =
        (cd || pps.any (fun pp => (ppWindowAndHit P profile oid pp).getD false)) := by
  intro pps
  induction pps with
  | nil => intro cd; simp [processObjectPPs]
  | cons pp rest ih =>
    intro cd
    cases hw : ppWindowAndHit P profile oid pp with
    | none => simp [processObjectPPs, hw, ih]
    | some hit => cases cd <;> cases hit <;> simp [processObjectPPs, hw, ih]

theorem processObjectPPs_pushed_isSome (P : CollisionParams) (profile : List (ℚ × ℚ))
    (oid : ℕ) :
    ∀ (pps : List PredictedPath) (cd : Bool),
      (processObjectPPs P profile oid cd pps).2.1 = true →
      ∃ pp ∈ pps, (ppWindowAndHit P profile oid pp).isSome = true := by
  intro pps
  induction pps with
  | nil => intro cd h; simp [processObjectPPs] at h
  | cons pp rest ih =>
    intro cd h
    cases hw : ppWindowAndHit P profile oid pp with
    | none =>
      simp only [processObjectPPs, hw] at h
      obtain ⟨q, hq, hqs⟩ := ih cd h
      exact ⟨q, by simp [hq], hqs⟩
    | some hit =>
      by_cases hcd : (cd || hit) = true
      · exact ⟨pp, by simp, by simp [hw]⟩
      · simp only [processObjectPPs, hw, hcd] at h
        simp at h
        obtain ⟨q, hq, hqs⟩ := ih _ h
        exact ⟨q, by simp [hq], hqs⟩

theorem processObjectPPs_pushed_false_truly (P : CollisionParams)
    (profile : List (ℚ × ℚ)) (oid : ℕ) :
    ∀ (pps : List PredictedPath),
      (processObjectPPs P profile oid false pps).2.1 = true →
      pps.any (fun pp => (ppWindowAndHit P profile oid pp).getD false) = true := by
  intro pps
  induction pps with
  | nil => intro h; simp [processObjectPPs] at h
  | cons pp rest ih =>
    intro h
    cases hw : ppWindowAndHit P profile oid pp with
    | none =>
      simp only [processObjectPPs, hw] at h
      simp [hw, ih h]
    | some hit =>
      cases hhit : hit with
      | true => simp [hw, hhit]
      | false =>
        rw [hhit] at hw
        simp only [processObjectPPs, hw] at h
        simp only [Bool.false_or, if_neg] at h
        simp [hw, ih h]

theorem processObjectPPs_false_pushed_eq_fst (P : CollisionParams)
    (profile : List (ℚ × ℚ)) (oid : ℕ) :
    ∀ (pps : List PredictedPath),
      (processObjectPPs P profile oid false pps).2.1 =
        (processObjectPPs P profile oid false pps).1 := by
  intro pps
  induction pps with
  | nil => rfl
  | cons pp rest ih =>
    cases hw : ppWindowAndHit P profile oid pp with
    | none => simp [processObjectPPs, hw, ih]
    | some hit => cases hit <;> simp [processObjectPPs, hw, ih]

theorem processObjectPPs_pushed_fst_true (P : CollisionParams)
    (profile : List (ℚ × ℚ)) (oid : ℕ) :
    ∀ (pps : List PredictedPath) (cd : Bool),
      (processObjectPPs P profile oid cd pps).2.1 = true →
      (processObjectPPs P profile oid cd pps).1 = true := by
  intro pps
  induction pps with
  | nil => intro cd h; simp [processObjectPPs] at h
  | cons pp rest ih =>
    intro cd h
    cases hw : ppWindowAndHit P profile oid pp with
    | none =>
      simp only [processObjectPPs, hw] at h ⊢
      exact ih cd h
    | some hit =>
      by_cases hcd : (cd || hit) = true
      · simp [processObjectPPs, hw, hcd]
      · simp only [processObjectPPs, hw, hcd] at h ⊢
        simp at h ⊢
        exact ih _ h

theorem collisionObjectLoop_fst (P : CollisionParams) (profile : List (ℚ × ℚ)) :
    ∀ (objs : List DynObject) (cd : Bool),
      (collisionObjectLoop P profile cd objs).1 =
        (cd || objs.any (fun o => objectTrulyCollides P profile o)) := by
  intro objs
  induction objs with
  | nil => intro cd; simp [collisionObjectLoop]
  | cons o rest ih =>
    intro cd
    simp [collisionObjectLoop, ih, processObjectPPs_fst, objectTrulyCollides,
      Bool.or_assoc]

theorem collisionObjectLoop_mem_targets (P : CollisionParams)
    (profile : List (ℚ × ℚ)) :
    ∀ (objs : List DynObject) (cd : Bool) (i : ℕ),
      i ∈ (collisionObjectLoop P profile cd objs).2.1 →
      ∃ o ∈ objs, o.oid = i ∧
        ∃ pp ∈ o.predictedPaths, (ppWindowAndHit P profile o.oid pp).isSome = true := by
  intro objs
  induction objs with
  | nil => intro cd i h; simp [collisionObjectLoop] at h
  | cons o rest ih =>
    intro cd i h
    simp only [collisionObjectLoop] at h
    rcases List.mem_append.1 h with h | h
    · by_cases hp : (processObjectPPs P profile o.oid cd o.predictedPaths).2.1 = true
      · simp only [hp, if_pos] at h
        simp at h
        subst h
        obtain ⟨pp, hpp, hps⟩ := processObjectPPs_pushed_isSome P profile o.oid
          o.predictedPaths cd hp
        exact ⟨o, by simp, rfl, pp, hpp, hps⟩
      · simp [hp] at h
    · obtain ⟨q, hq, hrest⟩ := ih _ i h
      exact ⟨q, by simp [hq], hrest⟩

theorem collisionObjectLoop_head_truly (P : CollisionParams)
    (profile : List (ℚ × ℚ)) :
    ∀ (objs : List DynObject) (i : ℕ),
      ((collisionObjectLoop P profile false objs).2.1).head? = some i →
      ∃ o ∈ objs, o.oid = i ∧ objectTrulyCollides P profile o = true := by
  intro objs
  induction objs with
  | nil => intro i h; simp [collisionObjectLoop] at h
  | cons o rest ih =>
    intro i h
    simp only [collisionObjectLoop] at h
    cases hp : (processObjectPPs P profile o.oid false o.predictedPaths).2.1 with
    | true =>
      rw [hp] at h
      simp at h
      refine ⟨o, by simp, h, ?_⟩
      rw [objectTrulyCollides]
      exact processObjectPPs_pushed_false_truly P profile o.oid o.predictedPaths hp
    | false =>
      rw [hp] at h
      simp only [if_neg, Bool.false_eq_true, not_false_eq_true, List.nil_append] at h
      have hcd : (processObjectPPs P profile o.oid false o.predictedPaths).1 = false := by
        rw [← processObjectPPs_false_pushed_eq_fst]
        exact hp
      rw [hcd] at h
      obtain ⟨q, hq, hrest⟩ := ih i h
      exact ⟨q, by simp [hq], hrest⟩

theorem collisionObjectLoop_ne_nil_iff (P : CollisionParams)
    (profile : List (ℚ × ℚ)) :
    ∀ (objs : List DynObject),
      ((collisionObjectLoop P profile false objs).2.1 ≠ []) ↔
      (collisionObjectLoop P profile false objs).1 = true := by
  intro objs
  induction objs with
  | nil => simp [collisionObjectLoop]
  | cons o rest ih =>
    simp only [collisionObjectLoop]
    cases hp : (processObjectPPs P profile o.oid false o.predictedPaths).2.1 with
    | true =>
      have h1 := processObjectPPs_pushed_fst_true P profile o.oid o.predictedPaths false hp
      simp [h1, collisionObjectLoop_fst]
    | false =>
      have hcd : (processObjectPPs P profile o.oid false o.predictedPaths).1 = false := by
        rw [← processObjectPPs_false_pushed_eq_fst]
        exact hp
      simp only [hp, hcd, Bool.false_eq_true, not_false_eq_true, if_neg,
        List.nil_append]
      exact ih

/-! ### Claim theorems: diagnostic conflicting-targets list -/

/-- C5 failing input: object 1 truly collides, after which the sticky
`collision_detected` flag makes the loop also record object 2, whose
predicted polyline crosses the corridor but whose footprint never
intersects the trimmed polygon, so the recorded list is not consistent with
the true geometric intersection test. -/
theorem C5_counterexample :
    (checkCollision paramsC5 profileC5 [objAC5, objBC5]).conflictingTargets = [1, 2] ∧
    objBC5.oid = 2 ∧
    objectTrulyCollides paramsC5 profileC5 objBC5 = false ∧
    cutPredictPathWithDuration paramsC5.now
      ((profileC5.getLast?).getD (0, 0)).1
      ([objAC5, objBC5].filter (fun o =>
        isTargetCollisionVehicleType o && !o.inEgoLane && o.nearDetectionAreaOk)) =
      [objAC5, objBC5] := by
  norm_num [checkCollision, cutPredictPathWithDuration, collisionObjectLoop,
    processObjectPPs, ppWindowAndHit, firstSegHitIdx, lastSegHitIdx, lowerBoundIdx,
    isTargetCollisionVehicleType, objectTrulyCollides, List.findIdx?,
    objAC5, objBC5, paramsC5, profileC5]

/-- C5 (amended): the collision flag is set iff the recorded list is
nonempty; every recorded id belongs to a truncated target object having a
predicted path of sufficient confidence whose polyline enters the ego
corridor with a computable collision window; and the first recorded object
satisfies the full true geometric intersection test.  Objects recorded
after the first trigger need not satisfy the footprint test, because the
`collision_detected` flag is function-scoped and never reset per object. -/
theorem C5_diagnostic_targets (P : CollisionParams) (profile : List (ℚ × ℚ))
    (objects : List DynObject) :
    ((checkCollision P profile objects).detected = true ↔
      (checkCollision P profile objects).conflictingTargets ≠ []) ∧
    (∀ i ∈ (checkCollision P profile objects).conflictingTargets,
      ∃ o ∈ cutPredictPathWithDuration P.now ((profile.getLast?).getD (0, 0)).1
          (objects.filter (fun o =>
            isTargetCollisionVehicleType o && !o.inEgoLane && o.nearDetectionAreaOk)),
        o.oid = i ∧
        ∃ pp ∈ o.predictedPaths, (ppWindowAndHit P profile o.oid pp).isSome = true) ∧
    (∀ i, ((checkCollision P profile objects).conflictingTargets).head? = some i →
      ∃ o ∈ cutPredictPathWithDuration P.now ((profile.getLast?).getD (0, 0)).1
          (objects.filter (fun o =>
            isTargetCollisionVehicleType o && !o.inEgoLane && o.nearDetectionAreaOk)),
        o.oid = i ∧ objectTrulyCollides P profile o = true) := by
  refine ⟨?_, ?_, ?_⟩
  · simpa [checkCollision] using
      (collisionObjectLoop_ne_nil_iff P profile
        (cutPredictPathWithDuration P.now ((profile.getLast?).getD (0, 0)).1
          (objects.filter (fun o =>
            isTargetCollisionVehicleType o && !o.inEgoLane && o.nearDetectionAreaOk)))).symm
  · intro i hi
    exact collisionObjectLoop_mem_targets P profile _ false i (by simpa [checkCollision] using hi)
  · intro i hi
    exact collisionObjectLoop_head_truly P profile _ i (by simpa [checkCollision] using hi)

/-- Witness for C5 (amended) at a concrete input: the first recorded object
of the counterexample snapshot truly collides. -/
theorem C5_diagnostic_targets_witness :
    ∃ o ∈ cutPredictPathWithDuration paramsC5.now
        ((profileC5.getLast?).getD (0, 0)).1
        ([objAC5, objBC5].filter (fun o =>
          isTargetCollisionVehicleType o && !o.inEgoLane && o.nearDetectionAreaOk)),
      o.oid = 1 ∧ objectTrulyCollides paramsC5 profileC5 o = true :=
  (C5_diagnostic_targets paramsC5 profileC5 [objAC5, objBC5]).2.2 1
    (by norm_num [checkCollision, cutPredictPathWithDuration, collisionObjectLoop,
      processObjectPPs, ppWindowAndHit, firstSegHitIdx, lastSegHitIdx, lowerBoundIdx,
      isTargetCollisionVehicleType, List.findIdx?, objAC5, objBC5, paramsC5, profileC5])

/-! ### Velocity writer lemma -/

theorem setVelocityFrom_getElem (v : ℚ) :
    ∀ (vels : List ℚ) (idx i : ℕ), i < vels.length →
      (setVelocityFrom idx v vels)[i]? =
        if idx ≤ i then some v else vels[i]? := by
  intro vels
  induction vels with
  | nil => intro idx i h; simp at h
  | cons w ws ih =>
    intro idx i h
    cases idx with
    | zero =>
      cases i with
      | zero => simp [setVelocityFrom]
      | succ j =>
        simp only [setVelocityFrom, List.getElem?_cons_succ]
        have := ih 0 j (by simpa using Nat.lt_of_succ_lt_succ h)
        simpa using this
    | succ n =>
      cases i with
      | zero => simp [setVelocityFrom]
      | succ j =>
        simp only [setVelocityFrom, List.getElem?_cons_succ]
        rw [ih n j (Nat.lt_of_succ_lt_succ h)]
        simp [Nat.succ_le_succ_iff]

/-! ### Claim theorems: hard-stop policy -/

/-- C3 counterexample: with the decel velocity configured as zero, the
cycle ends in STOP, none of the hard-stop conditions holds (no stuck
vehicle, a traffic light present, turn direction "straight"), and yet the
velocity written at the stop-line index (index 1) is exactly zero — the
"zero iff hard stop" biconditional of the claim fails. -/
theorem C3_counterexample :
    (modifyPathVelocity 0 envC3 ⟨State.STOP, none⟩).sm.state = State.STOP ∧
    ((modifyPathVelocity 0 envC3 ⟨State.STOP, none⟩).vels)[1]? = some 0 ∧
    isStopRequired envC3.isStuck envC3.hasTrafficLight envC3.turnDirection = false ∧
    envC3.stopLineResult = some (1, 1) := by
  norm_num [modifyPathVelocity, mainBranch, setStateWithMarginTime,
    requestedFromEnv, plannedStopVelocity, isEntryProhibited, isStopRequired,
    setVelocityFrom, envC3]

/-- C3 (amended): whenever the cycle reaches the detector stage and its
final state is STOP, the velocity written at the stop-line index and at
every following in-range index equals zero when a hard stop is required
(stuck detected, or no traffic light, or turn direction not "straight") and
the configured decel velocity otherwise; provided the configured decel
velocity is nonzero, the written value is zero if and only if a hard stop
is required. -/
theorem C3_stop_velocity (marginTime : ℚ) (env : CycleEnv) (sm : StateMachine)
    (s p c : ℤ)
    (hdet : env.detectionAreasEmpty = false)
    (hsl : env.stopLineResult = some (s, p))
    (hs : 0 < s) (hp : 0 < p)
    (hc : env.closestIdx = some c)
    (hfinal : (modifyPathVelocity marginTime env sm).sm.state = State.STOP)
    (i : ℕ) (hge : s.toNat ≤ i) (hi : i < env.vels.length) :
    ((modifyPathVelocity marginTime env sm).vels)[i]? =
      some (if isStopRequired env.isStuck env.hasTrafficLight env.turnDirection
            then 0 else env.decelVelocity) ∧
    (env.decelVelocity ≠ 0 →
      (((modifyPathVelocity marginTime env sm).vels)[i]? = some 0 ↔
        isStopRequired env.isStuck env.hasTrafficLight env.turnDirection = true)) := by
  have hpos : ¬(s ≤ 0 ∨ p ≤ 0) := by omega
  by_cases hlatch : sm.state = State.GO ∧
      (p < c ∨ (c = p ∧ env.isAheadOfPassJudge = true)) ∧ env.externalStop = false
  · exfalso
    rw [modifyPathVelocity] at hfinal
    simp only [hdet, hsl, hc] at hfinal
    simp [hpos, hlatch, hlatch.1] at hfinal
  · have hmv : modifyPathVelocity marginTime env sm = mainBranch marginTime env sm s := by
      rw [modifyPathVelocity]
      simp only [hdet, hsl, hc]
      simp [hpos, hlatch]
    rw [hmv] at hfinal ⊢
    have hsm2 : (setStateWithMarginTime marginTime sm (requestedFromEnv env)
        env.now).state = State.STOP := by
      simpa [mainBranch] using hfinal
    have hvels : ((mainBranch marginTime env sm s).vels)[i]? =
        some (plannedStopVelocity env) := by
      simp only [mainBranch, hsm2, if_true]
      rw [setVelocityFrom_getElem _ env.vels s.toNat i hi]
      simp [hge]
    refine ⟨by simpa [plannedStopVelocity] using hvels, ?_⟩
    intro hd
    rw [hvels]
    by_cases hreq : isStopRequired env.isStuck env.hasTrafficLight env.turnDirection = true
    · simp [plannedStopVelocity, hreq]
    · simp [plannedStopVelocity, hreq, hd]

/-- Witness for C3 (amended) at a concrete input: no traffic light, so a
hard stop is required and zero is written at the stop-line index. -/
theorem C3_stop_velocity_witness :
    ((modifyPathVelocity 0
        ⟨false, some (1, 1), some 0, false, true, false, false, false, 0, false,
          "straight", 3, [5, 5]⟩ ⟨State.STOP, none⟩).vels)[1]? =
      some (if isStopRequired false false "straight" then 0 else 3) :=
  (C3_stop_velocity 0
    ⟨false, some (1, 1), some 0, false, true, false, false, false, 0, false,
      "straight", 3, [5, 5]⟩ ⟨State.STOP, none⟩ 1 1 0 rfl rfl (by decide) (by decide)
    rfl
    (by norm_num [modifyPathVelocity, mainBranch, setStateWithMarginTime,
      requestedFromEnv, plannedStopVelocity, isEntryProhibited, isStopRequired,
      setVelocityFrom])
    1 (by decide) (by decide)).1

/-! ### Claim theorems: latched pass-through -/

/-- C4: whenever the current state is GO, the closest path index is beyond
the pass-judge index, and no external stop is asserted (and the geometric
preconditions of the cycle hold), the cycle returns success with the path
unchanged, the state machine untouched, and no collision or stuck
evaluation performed — for every value of the collision and stuck detector
results. -/
theorem C4_latched_pass_through (marginTime : ℚ) (env : CycleEnv) (sm : StateMachine)
    (s p c : ℤ)
    (hstate : sm.state = State.GO)
    (hdet : env.detectionAreasEmpty = false)
    (hsl : env.stopLineResult = some (s, p))
    (hs : 0 < s) (hp : 0 < p)
    (hc : env.closestIdx = some c)
    (hover : p < c)
    (hext : env.externalStop = false) :
    modifyPathVelocity marginTime env sm = ⟨true, sm, env.vels, false, false⟩ ∧
    ∀ b1 b2 : Bool,
      modifyPathVelocity marginTime
        ⟨env.detectionAreasEmpty, env.stopLineResult, env.closestIdx,
          env.isAheadOfPassJudge, b1, b2, env.externalGo, env.externalStop, env.now,
          env.hasTrafficLight, env.turnDirection, env.decelVelocity, env.vels⟩ sm =
      ⟨true, sm, env.vels, false, false⟩ := by
  have hpos : ¬(s ≤ 0 ∨ p ≤ 0) := by omega
  have key : ∀ e : CycleEnv, e.detectionAreasEmpty = false →
      e.stopLineResult = some (s, p) → e.closestIdx = some c →
      e.externalStop = false → e.vels = env.vels →
      modifyPathVelocity marginTime e sm = ⟨true, sm, env.vels, false, false⟩ := by
    intro e h1 h2 h3 h4 h5
    rw [modifyPathVelocity]
    simp only [h1, h2, h3]
    simp [hpos, hstate, hover, h4, h5]
  exact ⟨key env hdet hsl hc hext rfl, fun b1 b2 => key _ hdet hsl hc hext rfl⟩

/-- Witness for C4 at a concrete input: GO state, closest index 5 past
pass-judge index 2, collision and stuck asserted, path unchanged. -/
theorem C4_latched_pass_through_witness :
    modifyPathVelocity 1 envC4 ⟨State.GO, none⟩ =
      ⟨true, ⟨State.GO, none⟩, envC4.vels, false, false⟩ :=
  (C4_latched_pass_through 1 envC4 ⟨State.GO, none⟩ 1 2 5 rfl rfl rfl (by decide)
    (by decide) rfl (by decide) rfl).1

/-! ### Idempotence lemmas -/

theorem setState_repeat_state (marginTime : ℚ) (hm : 0 ≤ marginTime)
    (sm : StateMachine) (req : State) (t : ℚ) :
    (setStateWithMarginTime marginTime (setStateWithMarginTime marginTime sm req t)
        req t).state =
      (setStateWithMarginTime marginTime sm req t).state := by
  obtain ⟨s, st⟩ := sm
  by_cases h1 : s = req
  · subst h1
    simp [setStateWithMarginTime]
  · by_cases h2 : req = State.STOP
    · subst h2
      simp [setStateWithMarginTime, h1]
    · have hreq : req = State.GO := by cases req <;> simp_all
      have hs : s = State.STOP := by cases s <;> simp_all
      subst hreq
      subst hs
      cases st with
      | none =>
        have hx : ¬marginTime < (0 : ℚ) := not_lt.mpr hm
        simp [setStateWithMarginTime, sub_self, hx]
      | some u =>
        by_cases h3 : marginTime < t - u
        · simp [setStateWithMarginTime, h3]
        · simp [setStateWithMarginTime, h3]

/-! ### Claim theorems: idempotence on an identical snapshot -/

/-- C8 counterexample: with a negative configured margin time the claim
fails.  Starting from STOP with no pending timestamp and a GO request, the
first call records the pending timestamp and stays STOP (writing stop
velocities), while the second call on the identical snapshot sees elapsed
time 0 exceed the negative margin and transitions to GO, leaving the path
unchanged: final state and output path differ between the two calls. -/
theorem C8_counterexample :
    (modifyPathVelocity (-1) envC8
        (modifyPathVelocity (-1) envC8 ⟨State.STOP, none⟩).sm).sm.state ≠
      (modifyPathVelocity (-1) envC8 ⟨State.STOP, none⟩).sm.state ∧
    (modifyPathVelocity (-1) envC8
        (modifyPathVelocity (-1) envC8 ⟨State.STOP, none⟩).sm).vels ≠
      (modifyPathVelocity (-1) envC8 ⟨State.STOP, none⟩).vels := by
  norm_num +decide [modifyPathVelocity, mainBranch, setStateWithMarginTime,
    requestedFromEnv, plannedStopVelocity, isEntryProhibited, isStopRequired,
    setVelocityFrom, envC8]

/-- C8 (amended): provided the configured margin time is non-negative,
running `modifyPathVelocity` twice in succession on one identical snapshot
— the second call starting from the module state the first call left
behind — yields the same boolean result, the same final GO/STOP state, and
the same output velocities, for every snapshot and every starting module
state. -/
theorem C8_idempotent_nonneg_margin (marginTime : ℚ) (env : CycleEnv)
    (sm : StateMachine) (hm : 0 ≤ marginTime) :
    (modifyPathVelocity marginTime env
        (modifyPathVelocity marginTime env sm).sm).success =
      (modifyPathVelocity marginTime env sm).success ∧
    (modifyPathVelocity marginTime env
        (modifyPathVelocity marginTime env sm).sm).sm.state =
      (modifyPathVelocity marginTime env sm).sm.state ∧
    (modifyPathVelocity marginTime env
        (modifyPathVelocity marginTime env sm).sm).vels =
      (modifyPathVelocity marginTime env sm).vels := by
  by_cases hD : env.detectionAreasEmpty = true
  · simp [modifyPathVelocity, hD]
  · rcases hSL : env.stopLineResult with _ | sp
    · simp [modifyPathVelocity, hD, hSL]
    · obtain ⟨s, pj⟩ := sp
      by_cases hPos : s ≤ 0 ∨ pj ≤ 0
      · simp [modifyPathVelocity, hD, hSL, hPos]
      · rcases hCI : env.closestIdx with _ | c
        · simp [modifyPathVelocity, hD, hSL, hPos, hCI]
        · by_cases hL1 : sm.state = State.GO ∧
              (pj < c ∨ (c = pj ∧ env.isAheadOfPassJudge = true)) ∧
              env.externalStop = false
          · simp [modifyPathVelocity, hD, hSL, hPos, hCI, hL1]
          · have hmv1 : modifyPathVelocity marginTime env sm =
                mainBranch marginTime env sm s := by
              rw [modifyPathVelocity]
              simp only [hD, hSL, hCI]
              simp [hPos, hL1]
            rw [hmv1]
            have hr1sm : (mainBranch marginTime env sm s).sm =
                setStateWithMarginTime marginTime sm (requestedFromEnv env) env.now :=
              rfl
            rw [hr1sm]
            set sm2 := setStateWithMarginTime marginTime sm (requestedFromEnv env)
              env.now with hsm2def
            by_cases hL2 : sm2.state = State.GO ∧
                (pj < c ∨ (c = pj ∧ env.isAheadOfPassJudge = true)) ∧
                env.externalStop = false
            · have h2 : modifyPathVelocity marginTime env sm2 =
                  ⟨true, sm2, env.vels, false, false⟩ := by
                rw [modifyPathVelocity]
                simp only [hD, hSL, hCI]
                simp [hPos, hL2]
              rw [h2]
              refine ⟨rfl, rfl, ?_⟩
              simp only [mainBranch]
              rw [← hsm2def]
              simp +decide [hL2.1]
            · have h2 : modifyPathVelocity marginTime env sm2 =
                  mainBranch marginTime env sm2 s := by
                rw [modifyPathVelocity]
                simp only [hD, hSL, hCI]
                simp [hPos, hL2]
              rw [h2]
              have hstates : (setStateWithMarginTime marginTime sm2
                  (requestedFromEnv env) env.now).state = sm2.state := by
                rw [hsm2def]
                exact setState_repeat_state marginTime hm sm (requestedFromEnv env)
                  env.now
              refine ⟨rfl, ?_, ?_⟩
              · simpa only [mainBranch] using hstates
              · simp only [mainBranch]
                simp only [hstates]

/-- Witness for C8 (amended) at a concrete input with margin time 0. -/
theorem C8_idempotent_nonneg_margin_witness :
    (modifyPathVelocity 0 envC8
        (modifyPathVelocity 0 envC8 ⟨State.STOP, none⟩).sm).success =
      (modifyPathVelocity 0 envC8 ⟨State.STOP, none⟩).success ∧
    (modifyPathVelocity 0 envC8
        (modifyPathVelocity 0 envC8 ⟨State.STOP, none⟩).sm).sm.state =
      (modifyPathVelocity 0 envC8 ⟨State.STOP, none⟩).sm.state ∧
    (modifyPathVelocity 0 envC8
        (modifyPathVelocity 0 envC8 ⟨State.STOP, none⟩).sm).vels =
      (modifyPathVelocity 0 envC8 ⟨State.STOP, none⟩).vels :=
  C8_idempotent_nonneg_margin 0 envC8 ⟨State.STOP, none⟩ (by norm_num)

end Intersection
